import Mathlib

/-!
Verification development for a two-endpoint HTTP proxy gateway
(`src/unnamed/part_000`, the JSON gateway, and `src/api/proxy-img.js`,
the image proxy).  The JavaScript source is shallowly embedded: pure
string/JSON logic becomes Lean functions, the per-request handlers
become functions from an explicit request/upstream description to a
response description, and the in-memory rate-limit window becomes
explicit state passing.
-/

namespace Proxy

/-! ## Character and string helpers (JS string primitives) -/

/-- Models `String.prototype.startsWith`. -/
def strStartsWith (s pre : String) : Bool :=
  pre.data.isPrefixOf s.data

/-- Models `String.prototype.endsWith`. -/
def strEndsWith (s suf : String) : Bool :=
  suf.data.isSuffixOf s.data

/-- `existsSuffix p l` holds when some suffix of `l` satisfies `p`;
this is how an unanchored regular-expression match position is found. -/
def existsSuffix (p : List Char → Bool) : List Char → Bool
  | [] => p []
  | c :: cs => p (c :: cs) || existsSuffix p cs

/-- Substring search over character lists (`String.prototype.includes`). -/
def containsSub (l pat : List Char) : Bool :=
  existsSuffix (fun t => pat.isPrefixOf t) l

/-- Models `String.prototype.includes`. -/
def strIncludes (s sub : String) : Bool :=
  containsSub s.data sub.data

/-- Uppercase hexadecimal digit, used by `encodeURIComponent`. -/
def hexDigitUpper (n : Nat) : Char :=
  if n < 10 then Char.ofNat (48 + n) else Char.ofNat (65 + n - 10)

/-- Lowercase hexadecimal digit, used by `JSON.stringify` escapes. -/
def hexDigitLower (n : Nat) : Char :=
  if n < 10 then Char.ofNat (48 + n) else Char.ofNat (97 + n - 10)

/-- UTF-8 bytes of a single code point. -/
def utf8Bytes (c : Char) : List Nat :=
  let n := c.toNat
  if n < 128 then [n]
  else if n < 2048 then [192 + n / 64, 128 + n % 64]
  else if n < 65536 then [224 + n / 4096, 128 + (n / 64) % 64, 128 + n % 64]
  else [240 + n / 262144, 128 + (n / 4096) % 64, 128 + (n / 64) % 64, 128 + n % 64]

/-- Byte length of a string in UTF-8, i.e. `Buffer.byteLength(text, 'utf8')`. -/
def bufferByteLength (s : String) : Nat :=
  (s.data.map (fun c => (utf8Bytes c).length)).sum

/-- A percent-encoded byte, e.g. `%2F`. -/
def pctByte (b : Nat) : String :=
  String.mk ['%', hexDigitUpper (b / 16), hexDigitUpper (b % 16)]

/-- The characters `encodeURIComponent` leaves unescaped:
`A-Z a-z 0-9 - _ . ! ~ * ' ( )`. -/
def encodeURIComponentUnreserved (c : Char) : Bool :=
  (('A' ≤ c && c ≤ 'Z') || ('a' ≤ c && c ≤ 'z') || ('0' ≤ c && c ≤ '9')
    || c = '-' || c = '_' || c = '.' || c = '!' || c = '~' || c = '*'
    || c = Char.ofNat 39 || c = '(' || c = ')')

/-- Models the JS global `encodeURIComponent`. -/
def encodeURIComponent (s : String) : String :=
  String.join (s.data.map (fun c =>
    if encodeURIComponentUnreserved c then String.singleton c
    else String.join ((utf8Bytes c).map pctByte)))

/-! ## JSON values (`JsonValue`) and `JSON.stringify` -/

/-- A parsed JSON value, as produced by `JSON.parse`.  JSON numbers in
the responses this gateway manufactures are integers, so `Int` is used
for the numeric payload. -/
inductive Json where
  | null : Json
  | bool (b : Bool) : Json
  | num (n : Int) : Json
  | str (s : String) : Json
  | arr (items : List Json) : Json
  | obj (fields : List (String × Json)) : Json

/-- String escaping of `JSON.stringify` (QuoteJSONString). -/
def jsonEscapeChar (c : Char) : String :=
  if c = '"' then "\\\""
  else if c = '\\' then "\\\\"
  else if c = Char.ofNat 8 then "\\b"
  else if c = '\t' then "\\t"
  else if c = '\n' then "\\n"
  else if c = Char.ofNat 12 then "\\f"
  else if c = '\r' then "\\r"
  else if c.toNat < 32 then
    String.mk ['\\', 'u', '0', '0', hexDigitLower (c.toNat / 16), hexDigitLower (c.toNat % 16)]
  else String.singleton c

/-- A JSON string literal as `JSON.stringify` prints it. -/
def jsonQuote (s : String) : String :=
  "\"" ++ String.join (s.data.map jsonEscapeChar) ++ "\""

mutual

/-- Models `JSON.stringify` on a parsed value (insertion-ordered keys,
no extra whitespace). -/
def Json.stringify : Json → String
  | .null => "null"
  | .bool true => "true"
  | .bool false => "false"
  | .num n => toString n
  | .str s => jsonQuote s
  | .arr xs => "[" ++ stringifyItems xs ++ "]"
  | .obj fs => "\x7b" ++ stringifyFields fs ++ "\x7d"

def stringifyItems : List Json → String
  | [] => ""
  | [x] => Json.stringify x
  | x :: y :: rest => Json.stringify x ++ "," ++ stringifyItems (y :: rest)

def stringifyFields : List (String × Json) → String
  | [] => ""
  | [(k, v)] => jsonQuote k ++ ":" ++ Json.stringify v
  | (k, v) :: f :: rest => jsonQuote k ++ ":" ++ Json.stringify v ++ "," ++ stringifyFields (f :: rest)

end

/-! ## The URL-rewrite heuristics of `part_000` -/

/-- `UPLOAD_HEURISTICS = /(\/uploads\/|\/wp-content\/uploads\/)/i` —
an unanchored case-insensitive search for either literal. -/
def uploadHeuristicsTest (s : String) : Bool :=
  let l := s.data.map Char.toLower
  containsSub l "/uploads/".data || containsSub l "/wp-content/uploads/".data

/-- The recognised image file extensions. -/
def imageExtensionList : List (List Char) :=
  ["jpg", "jpeg", "png", "webp", "avif", "gif", "svg"].map String.data

/-- In JS regex `.` (no `s` flag) matches anything except a line
terminator: LF, CR, U+2028, U+2029. -/
def isLineTerminator (c : Char) : Bool :=
  c = '\n' || c = '\r' || c = Char.ofNat 8232 || c = Char.ofNat 8233

/-- A match of `\.(jpg|jpeg|png|webp|avif|gif|svg)(\?.*)?$` starting at
the head of `t` and consuming all of `t` (the `$` anchor). -/
def imageExtMatchAt (t : List Char) : Bool :=
  imageExtensionList.any (fun e =>
    ('.' :: e).isPrefixOf t &&
      (match t.drop (e.length + 1) with
       | [] => true
       | '?' :: rest => rest.all (fun c => !(isLineTerminator c))
       | _ => false))

/-- `IMAGE_EXTENSIONS = /\.(jpg|jpeg|png|webp|avif|gif|svg)(\?.*)?$/i` —
start position unanchored, end anchored at end of input. -/
def imageExtTest (s : String) : Bool :=
  existsSuffix imageExtMatchAt (s.data.map Char.toLower)

/-- Models successful construction of `new URL(s)` by the host
platform for the absolute `http`/`https` URLs this system handles:
the scheme is followed by a non-empty authority.  (`new URL` is a
host-environment primitive, not repository code; the rewrite logic is
also stated parametrically in this predicate.) -/
def jsUrlValid (s : String) : Bool :=
  (strStartsWith s "http://" &&
    !((s.drop 7).data.takeWhile (fun c => c ≠ '/' && c ≠ '?' && c ≠ '#')).isEmpty)
  || (strStartsWith s "https://" &&
    !((s.drop 8).data.takeWhile (fun c => c ≠ '/' && c ≠ '?' && c ≠ '#')).isEmpty)

/-- The per-string rewrite rule applied by `recursiveRewrite` to an
object property value (`part_000` lines 76–105).  `validUrl` is the
success predicate of the host `new URL` constructor. -/
def rewriteString (validUrl : String → Bool) (upstreamOrigin s : String) : String :=
  let originalUrl := if strStartsWith s "/" then upstreamOrigin ++ s else s
  let needsRewrite :=
    (strStartsWith s "/" && uploadHeuristicsTest originalUrl)
    || ((strStartsWith originalUrl "http://" || strStartsWith originalUrl "https://")
        && (imageExtTest originalUrl || uploadHeuristicsTest originalUrl))
  if needsRewrite then
    if validUrl originalUrl then "/api/proxy-img?url=" ++ encodeURIComponent originalUrl
    else s
  else s

mutual

/-- `recursiveRewrite(obj, upstreamOrigin)` of `part_000` lines 66–113,
as a pure tree transformation (the source mutates in place).  Arrays
recurse into each element via `recursiveRewrite` itself; objects
dispatch on each property value via `rewriteFieldValue`; any other
value (including a bare string, which matches neither the array nor
the object branch of the source) is returned unchanged. -/
def recursiveRewrite (validUrl : String → Bool) (upstreamOrigin : String) : Json → Json
  | .arr items => .arr (recursiveRewriteList validUrl upstreamOrigin items)
  | .obj fields => .obj (recursiveRewriteFields validUrl upstreamOrigin fields)
  | v => v

def recursiveRewriteList (validUrl : String → Bool) (upstreamOrigin : String) :
    List Json → List Json
  | [] => []
  | x :: xs =>
    recursiveRewrite validUrl upstreamOrigin x :: recursiveRewriteList validUrl upstreamOrigin xs

def recursiveRewriteFields (validUrl : String → Bool) (upstreamOrigin : String) :
    List (String × Json) → List (String × Json)
  | [] => []
  | (k, v) :: rest =>
    (k, rewriteFieldValue validUrl upstreamOrigin v)
      :: recursiveRewriteFields validUrl upstreamOrigin rest

/-- The object-property branch: a string value goes through the
rewrite rule; an object or array value is recursed into
(`recursiveRewrite(value, ...)`, unfolded per constructor); other
values are untouched. -/
def rewriteFieldValue (validUrl : String → Bool) (upstreamOrigin : String) : Json → Json
  | .str s => .str (rewriteString validUrl upstreamOrigin s)
  | .arr xs => .arr (recursiveRewriteList validUrl upstreamOrigin xs)
  | .obj fs => .obj (recursiveRewriteFields validUrl upstreamOrigin fs)
  | v => v

end

/-! ## HTTP response model and header maps -/

/-- An insertion-ordered header map, as a JS object literal of headers.
`hset` models property assignment (replace in place, or append). -/
def hset (hs : List (String × String)) (k v : String) : List (String × String) :=
  if hs.any (fun p => p.1 == k) then hs.map (fun p => if p.1 == k then (k, v) else p)
  else hs ++ [(k, v)]

/-- Header lookup. -/
def hget (hs : List (String × String)) (k : String) : Option String :=
  (hs.find? (fun p => p.1 == k)).map (fun p => p.2)

/-- Object spread `\x7b...a, ...b\x7d`: entries of `b` overwrite `a`. -/
def hmerge (a b : List (String × String)) : List (String × String) :=
  b.foldl (fun acc p => hset acc p.1 p.2) a

/-- What a handler writes to the client: status, headers, body text. -/
structure HttpResponse where
  status : Nat
  headers : List (String × String)
  body : String
deriving DecidableEq, Repr

/-- `CORS_HEADERS` of the gateway endpoint (`part_000`). -/
def corsHeadersGateway : List (String × String) :=
  [("Access-Control-Allow-Origin", "*"),
   ("Access-Control-Allow-Methods", "GET, POST, OPTIONS"),
   ("Access-Control-Allow-Headers", "Content-Type, Authorization, Origin, Accept")]

/-- `CORS_HEADERS` of the image endpoint (`proxy-img.js`). -/
def corsHeadersImg : List (String × String) :=
  [("Access-Control-Allow-Origin", "*"),
   ("Access-Control-Allow-Methods", "GET, OPTIONS"),
   ("Access-Control-Allow-Headers", "Content-Type, Authorization, Origin, Accept")]

/-! ## Rate limiter (`isRateLimited`, identical in both files) -/

/-- One `isRateLimited(ip)` call for a single identifier, with the
identifier's stored timestamp list passed explicitly (the source keeps
it in the `ipRequestCounts` map).  Returns the limited flag and the
list stored in the map after the call: on the limited path the source
returns without calling `set`, so the stored list is unchanged;
otherwise the filtered list with `now` pushed is stored back. -/
def isRateLimited (limit windowMs : Nat) (now : Int) (stored : List Int) :
    Bool × List Int :=
  let recentRequests := stored.filter (fun t => now - t < (windowMs : Int))
  if limit ≤ recentRequests.length then (true, stored)
  else (false, recentRequests ++ [now])

/-- The stored list for one identifier after a sequence of calls at the
given times, starting from no entry (`ipRequestCounts.get(ip) || []`). -/
def rateLimiterRun (limit windowMs : Nat) (calls : List Int) : List Int :=
  calls.foldl (fun st t => (isRateLimited limit windowMs t st).2) []

/-! ## SSRF guard (`isPrivateTarget` of `proxy-img.js`) -/

/-- Split a character list at every dot (the separators of a
dotted-quad literal). -/
def splitOnDot : List Char → List (List Char)
  | [] => [[]]
  | '.' :: rest => [] :: splitOnDot rest
  | c :: rest =>
    match splitOnDot rest with
    | [] => [[c]]
    | g :: gs => (c :: g) :: gs

/-- One group of `[0-9]\x7b1,3\x7d`. -/
def ipOctetChars (g : List Char) : Bool :=
  !g.isEmpty && g.length ≤ 3 && g.all Char.isDigit

/-- `ipRegex = /^(?:[0-9]\x7b1,3\x7d\.)\x7b3\x7d[0-9]\x7b1,3\x7d$/`:
exactly four dot-separated runs of one to three digits. -/
def ipRegexTest (hostname : String) : Bool :=
  match splitOnDot hostname.data with
  | [a, b, c, d] => ipOctetChars a && ipOctetChars b && ipOctetChars c && ipOctetChars d
  | _ => false

/-- A match of the `127(?:\.[0-9]+)\x7b0,2\x7d\.[0-9]+` alternative
starting at the head of `t`.  The alternative carries no anchors, so a
match exists somewhere iff some position starts with `127.` followed
by a digit. -/
def privAlt127 : List Char → Bool
  | '1' :: '2' :: '7' :: '.' :: d :: _ => d.isDigit
  | _ => false

/-- Likewise for the `10(?:\.[0-9]+)\x7b0,2\x7d\.[0-9]+` alternative. -/
def privAlt10 : List Char → Bool
  | '1' :: '0' :: '.' :: d :: _ => d.isDigit
  | _ => false

/-- Likewise for the
`172\.(?:1[6-9]|2[0-9]|3[0-1])(?:\.[0-9]+)\x7b0,2\x7d\.[0-9]+` alternative. -/
def privAlt172 : List Char → Bool
  | '1' :: '7' :: '2' :: '.' :: a :: b :: '.' :: d :: _ =>
    ((a = '1' && '6' ≤ b && b ≤ '9')
      || (a = '2' && b.isDigit)
      || (a = '3' && (b = '0' || b = '1'))) && d.isDigit
  | _ => false

/-- Between one and `n` repetitions of `\.[0-9]+` consuming the whole
remaining input (for the `$`-anchored last alternative). -/
def dotDigitGroupsToEnd : Nat → List Char → Bool
  | 0, _ => false
  | n + 1, '.' :: rest =>
    let ds := rest.takeWhile Char.isDigit
    let rest2 := rest.dropWhile Char.isDigit
    !ds.isEmpty && (rest2.isEmpty || dotDigitGroupsToEnd n rest2)
  | _, _ => false

/-- The last alternative `192\.168(?:\.[0-9]+)\x7b0,2\x7d\.[0-9]+$`,
matched at the head of `t` and required to consume all of `t`. -/
def privAlt192 (t : List Char) : Bool :=
  "192.168".data.isPrefixOf t && dotDigitGroupsToEnd 3 (t.drop 7)

/-- `privateIpRegex.test(hostname)` for
`/^(::1)|(127...)|(10...)|(172...)|(192\.168...)$/`.
The alternation binds loosely: only the first alternative is anchored
at the start and only the last at the end, so the three middle
alternatives match anywhere in the string. -/
def privateIpRegexTest (hostname : String) : Bool :=
  let l := hostname.data
  "::1".data.isPrefixOf l
  || existsSuffix privAlt127 l
  || existsSuffix privAlt10 l
  || existsSuffix privAlt172 l
  || existsSuffix privAlt192 l

/-- `isPrivateTarget(hostname)` of `proxy-img.js` lines 59–76. -/
def isPrivateTarget (hostname : String) : Bool :=
  if ipRegexTest hostname && privateIpRegexTest hostname then true
  else hostname == "localhost" || strEndsWith hostname ".local"
    || strEndsWith hostname ".internal"

/-! ## Stream passthrough (`part_000` lines 122–154) -/

/-- Header fields of an upstream `fetch` response that the handlers
read.  The streamed body bytes themselves are carried as the body text
where the handler buffers them. -/
structure UpstreamResp where
  status : Nat
  contentType : Option String
  contentLength : Option String
deriving DecidableEq, Repr

/-- The header set written by `streamPassthrough`: CORS headers spread
with `extraHeaders`, then `Content-Type` unconditionally overwritten
with the upstream's content type (or `application/octet-stream`), then
`Content-Length` copied from the upstream when present. -/
def streamPassthroughHeaders (u : UpstreamResp) (extraHeaders : List (String × String)) :
    List (String × String) :=
  let headers := hmerge corsHeadersGateway extraHeaders
  let headers := hset headers "Content-Type" (u.contentType.getD "application/octet-stream")
  match u.contentLength with
  | some cl => hset headers "Content-Length" cl
  | none => headers

/-- `streamPassthrough(upstreamResponse, res, extraHeaders)`: writes
the upstream status with those headers and pipes the body through. -/
def streamPassthrough (u : UpstreamResp) (body : String)
    (extraHeaders : List (String × String)) : HttpResponse :=
  { status := u.status, headers := streamPassthroughHeaders u extraHeaders, body := body }

/-! ## Gateway dispatcher, JSON branch (`part_000` lines 213–253) -/

/-- Body of the 502 too-large response. -/
def tooLargeBody : Json :=
  .obj [("success", .bool false), ("error", .str "Upstream response too large to parse"),
        ("code", .num 502), ("rewrote", .bool false)]

/-- Steps 8–12 of the gateway handler: branch on the upstream content
type; in the JSON branch buffer the body text, enforce
`MAX_JSON_SIZE_BYTES`, parse, rewrite and re-serialize; on a parse
failure deliver via `streamPassthrough (new Response(text,
upstreamResponse))` — the constructed `Response` copies the upstream's
status and headers — with a `text/plain` extra header; in the non-JSON
branch delegate to `streamPassthrough` directly.  `parse` is the host
`JSON.parse` (`none` = throws) and `validUrl` the host `new URL`
success predicate.  (Null-body upstream statuses, on which the
`Response` constructor itself throws, are outside this model.) -/
def gatewayContentTypeDispatch (maxJsonSizeBytes : Nat) (parse : String → Option Json)
    (validUrl : String → Bool) (upstreamOrigin : String) (u : UpstreamResp)
    (text : String) : HttpResponse :=
  if strIncludes (u.contentType.getD "") "application/json" then
    let size := bufferByteLength text
    if maxJsonSizeBytes < size then
      { status := 502,
        headers := hmerge corsHeadersGateway [("Content-Type", "application/json")],
        body := Json.stringify tooLargeBody }
    else
      match parse text with
      | none =>
        streamPassthrough u text [("Content-Type", "text/plain; charset=utf-8")]
      | some data =>
        { status := u.status,
          headers := hmerge corsHeadersGateway [("Content-Type", "application/json; charset=utf-8")],
          body := Json.stringify (recursiveRewrite validUrl upstreamOrigin data) }
  else
    streamPassthrough u text []

/-! ## Image endpoint (`proxy-img.js`) -/

/-- `PLACEHOLDER_URL`. -/
def placeholderUrl : String :=
  "https://placehold.co/300x400/FFF9E0/000?text=Image+Error"

/-- `sendError(req, res, statusCode, message)` of `proxy-img.js`
lines 83–97, with the request's `accept` header (empty string when
absent) passed explicitly. -/
def sendError (accept : String) (statusCode : Nat) (message : String) : HttpResponse :=
  if strIncludes accept "image/" && !(strIncludes accept "application/json") then
    { status := 302, headers := hset corsHeadersImg "Location" placeholderUrl, body := "" }
  else
    { status := statusCode,
      headers := hset corsHeadersImg "Content-Type" "application/json",
      body := Json.stringify (.obj [("success", .bool false), ("error", .str message),
                                    ("code", .num statusCode)]) }

/-- The `url` query parameter as the handler sees it after step 4:
absent, present but rejected by `new URL`, or parsed into a URL object
(of which the handler reads `protocol` — scheme with trailing colon —
and `hostname`). -/
inductive UrlParam where
  | missing : UrlParam
  | unparsable : UrlParam
  | parsed (protocol hostname : String) : UrlParam
deriving DecidableEq, Repr

/-- A request to the image endpoint. -/
structure ImgRequest where
  method : String
  accept : String
  url : UrlParam
deriving DecidableEq, Repr

/-- The upstream `fetch` outcome for the image endpoint:
`contentLength` is the parsed declared length when the header is
present and truthy. -/
structure ImgUpstream where
  status : Nat
  contentType : Option String
  contentLength : Option Nat
deriving DecidableEq, Repr

/-- Outcome of one image-endpoint request: the response written and
whether the upstream fetch (step 6) was performed. -/
structure ImgOutcome where
  response : HttpResponse
  fetched : Bool
deriving DecidableEq, Repr

/-- Steps 6–10 of the image handler, reached only after all
validation passed. -/
def imgFetchPhase (imageMaxBytes : Nat) (accept : String) (u : ImgUpstream) : ImgOutcome :=
  if !(200 ≤ u.status && u.status < 300) then
    { response := sendError accept u.status ("Upstream failed with status " ++ toString u.status),
      fetched := true }
  else
    match u.contentLength with
    | some cl =>
      if imageMaxBytes < cl then
        { response := sendError accept 413
            ("Image size (" ++ toString cl ++ " bytes) exceeds limit ("
              ++ toString imageMaxBytes ++ " bytes)"),
          fetched := true }
      else
        { response :=
            { status := 200,
              headers := hset (hset (hset corsHeadersImg
                  "Content-Type" (u.contentType.getD "application/octet-stream"))
                  "Cache-Control" "public, max-age=86400")
                  "Content-Length" (toString cl),
              body := "" },
          fetched := true }
    | none =>
      { response :=
          { status := 200,
            headers := hset (hset corsHeadersImg
                "Content-Type" (u.contentType.getD "application/octet-stream"))
                "Cache-Control" "public, max-age=86400",
            body := "" },
        fetched := true }

/-- The image-endpoint handler (`proxy-img.js` lines 100–204) as a
function of the request, the rate-limit verdict for the client's
identifier, the configured allow-list (`none` = unrestricted) and the
upstream fetch outcome (consulted only when the fetch happens).  The
streamed response body bytes are not modelled (empty body text on the
success path). -/
def imgHandler (imageMaxBytes : Nat) (allowedHosts : Option (List String))
    (req : ImgRequest) (rateLimited : Bool) (u : ImgUpstream) : ImgOutcome :=
  if req.method == "OPTIONS" then
    { response := { status := 204, headers := corsHeadersImg, body := "" }, fetched := false }
  else if req.method != "GET" then
    { response := { status := 405, headers := corsHeadersImg, body := "Method Not Allowed" },
      fetched := false }
  else if rateLimited then
    { response := sendError req.accept 429 "Rate limit exceeded", fetched := false }
  else
    match req.url with
    | .missing =>
      { response := sendError req.accept 400 "Missing url query parameter", fetched := false }
    | .unparsable =>
      { response := sendError req.accept 400 "Invalid URL format", fetched := false }
    | .parsed protocol hostname =>
      if protocol != "http:" && protocol != "https:" then
        { response := sendError req.accept 400 "Invalid protocol. Only http and https are allowed.",
          fetched := false }
      else if isPrivateTarget hostname then
        { response := sendError req.accept 400 "Target URL is internal or private. Request blocked.",
          fetched := false }
      else
        match allowedHosts with
        | some hosts =>
          if !hosts.contains hostname then
            { response := sendError req.accept 403 "Hostname not allowed.", fetched := false }
          else imgFetchPhase imageMaxBytes req.accept u
        | none => imgFetchPhase imageMaxBytes req.accept u

/-- Modelled from the spec: the private/loopback IPv4 blocks the spec
names (127.0.0.0/8, 10.0.0.0/8, 172.16.0.0/12, 192.168.0.0/16), as a
predicate on the first two octets of a dotted-quad address.  Used only
to compare the source's classifier with the specified ranges. -/
def specPrivateRange (a b : Nat) : Bool :=
  a == 127 || a == 10 || (a == 172 && decide (16 ≤ b) && decide (b ≤ 31))
    || (a == 192 && b == 168)

/-! ## Helper lemmas -/

theorem recursiveRewriteList_eq_map (v : String → Bool) (o : String) (xs : List Json) :
    recursiveRewriteList v o xs = xs.map (recursiveRewrite v o) := by
  induction xs with
  | nil => rfl
  | cons x xs ih => simp [recursiveRewriteList, ih]

theorem recursiveRewriteFields_eq_map (v : String → Bool) (o : String)
    (fs : List (String × Json)) :
    recursiveRewriteFields v o fs = fs.map (fun kv => (kv.1, rewriteFieldValue v o kv.2)) := by
  induction fs with
  | nil => rfl
  | cons kv fs ih => cases kv with | mk k val => simp [recursiveRewriteFields, ih]

theorem isRateLimited_snd_length_le (limit windowMs : Nat) (now : Int) (st : List Int)
    (h : st.length ≤ limit) : ((isRateLimited limit windowMs now st).2).length ≤ limit := by
  unfold isRateLimited
  by_cases hc : limit ≤ (st.filter (fun t => now - t < (windowMs : Int))).length
  · simpa [hc] using h
  · push_neg at hc
    simp only [hc, if_neg (not_le.mpr hc), List.length_append, List.length_cons,
      List.length_nil]
    omega

/-! ## Claim theorems -/

/-- C1 counterexample: an array element string that matches the
upload-path heuristic and resolves to a valid absolute URL is NOT
replaced by the traversal (first conjunct), although the very same
string as an object property value is (second conjunct); the last two
conjuncts check that the string does satisfy the heuristic and URL
validity the claim assumes. -/
theorem claim1_array_element_counterexample :
    recursiveRewrite jsUrlValid "https://www.sankavollerei.com"
        (.arr [.str "/uploads/a.jpg"]) = .arr [.str "/uploads/a.jpg"]
    ∧ recursiveRewrite jsUrlValid "https://www.sankavollerei.com"
        (.obj [("thumbnail", .str "/uploads/a.jpg")])
      = .obj [("thumbnail",
          .str "/api/proxy-img?url=https%3A%2F%2Fwww.sankavollerei.com%2Fuploads%2Fa.jpg")]
    ∧ uploadHeuristicsTest "https://www.sankavollerei.com/uploads/a.jpg" = true
    ∧ jsUrlValid "https://www.sankavollerei.com/uploads/a.jpg" = true :=
  ⟨rfl, rfl, by decide, by decide⟩

/-- C1 (amended): the depth-first traversal applies the string-rewrite
rule exactly to strings occurring as object property values.  A bare
string (in particular an array element) is returned unchanged by the
traversal, arrays recurse element-wise through the traversal itself,
and object property values dispatch through `rewriteFieldValue`, which
rewrites string values. -/
theorem claim1_rewrite_only_object_values (v : String → Bool) (o : String)
    (items : List Json) (fields : List (String × Json)) (s : String) :
    recursiveRewrite v o (.str s) = .str s
    ∧ recursiveRewrite v o (.arr items) = .arr (items.map (recursiveRewrite v o))
    ∧ recursiveRewrite v o (.obj fields)
      = .obj (fields.map (fun kv => (kv.1, rewriteFieldValue v o kv.2)))
    ∧ rewriteFieldValue v o (.str s) = .str (rewriteString v o s) :=
  ⟨rfl, by rw [recursiveRewrite, recursiveRewriteList_eq_map],
   by rw [recursiveRewrite, recursiveRewriteFields_eq_map], rfl⟩

/-- C2: evaluating `isPrivateTarget` at the failing input `110.0.0.1`:
the code classifies it as private although it lies in none of the four
specified blocks (the `10...` regex alternative is unanchored and
matches the substring `10.0.0.1`).  The remaining conjuncts record the
behaviour on representative in-range and out-of-range addresses. -/
theorem claim2_unanchored_regex_eval :
    isPrivateTarget "110.0.0.1" = true
    ∧ ipRegexTest "110.0.0.1" = true
    ∧ specPrivateRange 110 0 = false
    ∧ isPrivateTarget "8.8.8.8" = false
    ∧ isPrivateTarget "127.0.0.1" = true
    ∧ isPrivateTarget "10.0.0.5" = true
    ∧ isPrivateTarget "172.20.1.2" = true
    ∧ isPrivateTarget "192.168.1.5" = true
    ∧ isPrivateTarget "172.15.0.1" = false := by
  decide

/-- C3: evaluating the gateway's JSON branch at a failing input — an
upstream response declaring `application/json` whose body does not
parse: the raw text is delivered, but with content type
`application/json` (the upstream's), because `streamPassthrough`
overwrites the `text/plain; charset=utf-8` extra header with the
upstream response's content type. -/
theorem claim3_parse_failure_content_type_eval :
    hget (gatewayContentTypeDispatch 2097152 (fun _ => none) (fun _ => true)
        "https://www.sankavollerei.com"
        { status := 200, contentType := some "application/json", contentLength := none }
        "not json").headers "Content-Type" = some "application/json"
    ∧ (gatewayContentTypeDispatch 2097152 (fun _ => none) (fun _ => true)
        "https://www.sankavollerei.com"
        { status := 200, contentType := some "application/json", contentLength := none }
        "not json").body = "not json"
    ∧ (gatewayContentTypeDispatch 2097152 (fun _ => none) (fun _ => true)
        "https://www.sankavollerei.com"
        { status := 200, contentType := some "application/json", contentLength := none }
        "not json").status = 200 := by
  decide

/-- C4 counterexample: the origin-relative string `/a.jpg` matches the
image-extension pattern but not the upload-path heuristic after
resolution, yet the rewriter replaces it (because after resolving, the
resolved URL starts with the origin's `https://` scheme and so also
goes through the absolute-URL check, which accepts image extensions). -/
theorem claim4_relative_image_ext_counterexample :
    uploadHeuristicsTest "https://www.sankavollerei.com/a.jpg" = false
    ∧ imageExtTest "https://www.sankavollerei.com/a.jpg" = true
    ∧ recursiveRewrite jsUrlValid "https://www.sankavollerei.com"
        (.obj [("img", .str "/a.jpg")])
      = .obj [("img", .str "/api/proxy-img?url=https%3A%2F%2Fwww.sankavollerei.com%2Fa.jpg")] :=
  ⟨by decide, by decide, rfl⟩

/-- C4 (amended): a string beginning with `/` is marked for rewrite
iff its resolution `upstreamOrigin ++ v` matches the upload-path
heuristic OR begins with `http://` or `https://` and matches the
image-extension pattern or the upload-path heuristic; a marked string
is replaced when the resolution is a valid URL and kept otherwise. -/
theorem claim4_relative_marking (v : String → Bool) (o s : String)
    (h : strStartsWith s "/" = true) :
    rewriteString v o s =
      (if (uploadHeuristicsTest (o ++ s)
            || ((strStartsWith (o ++ s) "http://" || strStartsWith (o ++ s) "https://")
                && (imageExtTest (o ++ s) || uploadHeuristicsTest (o ++ s))))
          && v (o ++ s)
       then "/api/proxy-img?url=" ++ encodeURIComponent (o ++ s)
       else s) := by
  unfold rewriteString
  rw [h]
  cases hu : uploadHeuristicsTest (o ++ s) <;>
    cases h1 : strStartsWith (o ++ s) "http://" <;>
      cases h2 : strStartsWith (o ++ s) "https://" <;>
        cases hi : imageExtTest (o ++ s) <;>
          cases hv : v (o ++ s) <;>
            simp [hu, h1, h2, hi, hv]

/-- C4 witness: the amended marking rule applied at the concrete
counterexample input. -/
theorem claim4_relative_marking_witness :
    rewriteString jsUrlValid "https://www.sankavollerei.com" "/a.jpg"
      = "/api/proxy-img?url=https%3A%2F%2Fwww.sankavollerei.com%2Fa.jpg" := by
  rw [claim4_relative_marking jsUrlValid "https://www.sankavollerei.com" "/a.jpg" (by decide)]
  decide

/-- C5: the rate limiter returns limited exactly when the number of
stored timestamps still inside the trailing window reaches the limit;
a limited call leaves the stored window untouched, a non-limited call
stores the filtered window with the current timestamp appended; and
the concrete limit-2 scenario yields false, false, true, and false
again once the window has elapsed. -/
theorem claim5_rate_limiter_spec (l w : Nat) (now : Int) (st : List Int) :
    (isRateLimited 2 60000 0 [] = (false, [0])
      ∧ isRateLimited 2 60000 1000 [0] = (false, [0, 1000])
      ∧ isRateLimited 2 60000 2000 [0, 1000] = (true, [0, 1000])
      ∧ isRateLimited 2 60000 61000 [0, 1000] = (false, [61000]))
    ∧ (isRateLimited l w now st).1
        = decide (l ≤ (st.filter (fun t => now - t < (w : Int))).length)
    ∧ ((isRateLimited l w now st).1 = true → (isRateLimited l w now st).2 = st)
    ∧ ((isRateLimited l w now st).1 = false →
        (isRateLimited l w now st).2 = st.filter (fun t => now - t < (w : Int)) ++ [now]) := by
  refine ⟨⟨by decide, by decide, by decide, by decide⟩, ?_, ?_, ?_⟩ <;>
    · unfold isRateLimited
      by_cases hc : l ≤ (st.filter (fun t => now - t < (w : Int))).length <;>
        simp [hc]

/-- C5 witness: the non-limited branch of the general statement at a
concrete input. -/
theorem claim5_rate_limiter_spec_witness :
    (isRateLimited 2 60000 5 [0]).2 = [0, 5] :=
  (claim5_rate_limiter_spec 2 60000 5 [0]).2.2.2 (by decide)

/-- C6: when the upstream content type contains `application/json` and
the buffered body's byte length strictly exceeds the configured
maximum, the gateway answers 502 with exactly the specified JSON body;
the right-hand side does not depend on the parser, URL validator or
origin, so no parsing or rewriting takes place. -/
theorem claim6_too_large_502 (maxJsonSizeBytes : Nat) (parse : String → Option Json)
    (validUrl : String → Bool) (upstreamOrigin : String) (u : UpstreamResp) (text : String)
    (hct : strIncludes (u.contentType.getD "") "application/json" = true)
    (hsize : maxJsonSizeBytes < bufferByteLength text) :
    gatewayContentTypeDispatch maxJsonSizeBytes parse validUrl upstreamOrigin u text =
      { status := 502,
        headers := hmerge corsHeadersGateway [("Content-Type", "application/json")],
        body := "\x7b\"success\":false,\"error\":\"Upstream response too large to parse\",\"code\":502,\"rewrote\":false\x7d" } := by
  unfold gatewayContentTypeDispatch
  rw [hct]
  simp only [if_true, if_pos hsize]
  decide

/-- C6 witness: a four-byte body against a three-byte limit. -/
theorem claim6_too_large_502_witness :
    gatewayContentTypeDispatch 3 (fun _ => some Json.null) (fun _ => true) "o"
        { status := 200, contentType := some "application/json", contentLength := none }
        "abcd" =
      { status := 502,
        headers := hmerge corsHeadersGateway [("Content-Type", "application/json")],
        body := "\x7b\"success\":false,\"error\":\"Upstream response too large to parse\",\"code\":502,\"rewrote\":false\x7d" } :=
  claim6_too_large_502 3 (fun _ => some Json.null) (fun _ => true) "o"
    { status := 200, contentType := some "application/json", contentLength := none }
    "abcd" (by decide) (by decide)

/-- C7: `sendError` answers the 302 placeholder redirect exactly when
the accept header contains `image/` and does not contain
`application/json`; in every other case it answers the error status
with the JSON body carrying the message and code. -/
theorem claim7_sendError_policy (accept : String) (statusCode : Nat) (message : String) :
    ((sendError accept statusCode message
        = { status := 302, headers := hset corsHeadersImg "Location" placeholderUrl,
            body := "" })
      ↔ (strIncludes accept "image/" = true ∧ strIncludes accept "application/json" = false))
    ∧ ((strIncludes accept "image/" = false ∨ strIncludes accept "application/json" = true) →
        sendError accept statusCode message
          = { status := statusCode,
              headers := hset corsHeadersImg "Content-Type" "application/json",
              body := Json.stringify (.obj [("success", .bool false), ("error", .str message),
                                            ("code", .num statusCode)]) }) := by
  unfold sendError
  cases hi : strIncludes accept "image/" <;>
    cases hj : strIncludes accept "application/json" <;>
      simp [hi, hj]
  all_goals exact fun _ h2 => absurd h2 (by decide)

/-- C7 witness: a JSON-accepting client receives the JSON error body. -/
theorem claim7_sendError_policy_witness :
    sendError "application/json" 400 "boom"
      = { status := 400, headers := hset corsHeadersImg "Content-Type" "application/json",
          body := "\x7b\"success\":false,\"error\":\"boom\",\"code\":400\x7d" } :=
  ((claim7_sendError_policy "application/json" 400 "boom").2 (Or.inr (by decide))).trans
    (by decide)

/-- C8: a GET request that is not rate limited and whose target URL
parses with an allowed scheme but a private/internal hostname is
answered by `sendError` with status 400 (or the placeholder redirect,
which `sendError` chooses from the accept header), and the upstream
fetch is never performed. -/
theorem claim8_private_target_blocked (imageMaxBytes : Nat)
    (allowedHosts : Option (List String)) (accept protocol hostname : String)
    (u : ImgUpstream)
    (hproto : (protocol == "http:" || protocol == "https:") = true)
    (hpriv : isPrivateTarget hostname = true) :
    imgHandler imageMaxBytes allowedHosts
        { method := "GET", accept := accept, url := .parsed protocol hostname } false u =
      { response := sendError accept 400 "Target URL is internal or private. Request blocked.",
        fetched := false } := by
  have hpp : (protocol != "http:" && protocol != "https:") = false := by
    cases hp1 : protocol == "http:" <;> cases hp2 : protocol == "https:" <;>
      simp_all [bne]
  unfold imgHandler
  simp [hpp, hpriv]

/-- C8 witness: the spec's scenario input, a GET for
`http://10.0.0.5/x.png` with no accept preference. -/
theorem claim8_private_target_blocked_witness :
    imgHandler 10485760 none
        { method := "GET", accept := "", url := .parsed "http:" "10.0.0.5" } false
        { status := 200, contentType := some "image/png", contentLength := some 100 } =
      { response := sendError "" 400 "Target URL is internal or private. Request blocked.",
        fetched := false } :=
  claim8_private_target_blocked 10485760 none "" "http:" "10.0.0.5"
    { status := 200, contentType := some "image/png", contentLength := some 100 }
    (by decide) (by decide)

/-- C9: on the success path (all checks pass, upstream status 2xx,
declared length within the limit) the status written to the client is
the literal 200, whatever 2xx status the upstream returned. -/
theorem claim9_success_status_forced_200 (imageMaxBytes : Nat)
    (allowedHosts : Option (List String)) (accept protocol hostname : String)
    (u : ImgUpstream)
    (hproto : (protocol == "http:" || protocol == "https:") = true)
    (hpriv : isPrivateTarget hostname = false)
    (hallow : (match allowedHosts with
               | none => true
               | some hosts => hosts.contains hostname) = true)
    (hok : (200 ≤ u.status && u.status < 300) = true)
    (hlen : (match u.contentLength with
             | none => true
             | some cl => decide (cl ≤ imageMaxBytes)) = true) :
    (imgHandler imageMaxBytes allowedHosts
        { method := "GET", accept := accept, url := .parsed protocol hostname }
        false u).response.status = 200
    ∧ (imgHandler imageMaxBytes allowedHosts
        { method := "GET", accept := accept, url := .parsed protocol hostname }
        false u).fetched = true := by
  have hpp : (protocol != "http:" && protocol != "https:") = false := by
    cases hp1 : protocol == "http:" <;> cases hp2 : protocol == "https:" <;>
      simp_all [bne]
  have hfp : (imgFetchPhase imageMaxBytes accept u).response.status = 200
      ∧ (imgFetchPhase imageMaxBytes accept u).fetched = true := by
    unfold imgFetchPhase
    rw [hok]
    cases hcl : u.contentLength with
    | none => simp
    | some cl =>
      rw [hcl] at hlen
      simp only [decide_eq_true_eq] at hlen
      simp [Nat.not_lt.mpr hlen]
  cases allowedHosts with
  | none =>
    unfold imgHandler
    simpa [hpp, hpriv] using hfp
  | some hosts =>
    have hcontains : hosts.contains hostname = true := hallow
    have hmem : hostname ∈ hosts := by simpa using hcontains
    unfold imgHandler
    simpa [hpp, hpriv, hcontains, hmem] using hfp

/-- C9 witness: an upstream 206 Partial Content is delivered to the
client as a 200. -/
theorem claim9_success_status_forced_200_witness :
    (imgHandler 10485760 none
        { method := "GET", accept := "", url := .parsed "https:" "example.com" }
        false { status := 206, contentType := some "image/png", contentLength := some 1000 }).response.status = 200
    ∧ (imgHandler 10485760 none
        { method := "GET", accept := "", url := .parsed "https:" "example.com" }
        false { status := 206, contentType := some "image/png", contentLength := some 1000 }).fetched = true :=
  claim9_success_status_forced_200 10485760 none "" "https:" "example.com"
    { status := 206, contentType := some "image/png", contentLength := some 1000 }
    (by decide) (by decide) (by decide) (by decide) (by decide)

/-- C10: whatever sequence of calls is made at whatever times, the
timestamp list stored for an identifier never holds more than the
limit many entries, because an entry is appended (to the filtered
window) only when the filtered count is strictly below the limit. -/
theorem claim10_stored_window_bounded (limit windowMs : Nat) (calls : List Int) :
    (rateLimiterRun limit windowMs calls).length ≤ limit := by
  suffices h : ∀ (cs : List Int) (st : List Int), st.length ≤ limit →
      ((cs.foldl (fun st t => (isRateLimited limit windowMs t st).2) st).length ≤ limit) by
    exact h calls [] (by simp)
  intro cs
  induction cs with
  | nil => intro st hst; simpa using hst
  | cons t rest ih =>
    intro st hst
    exact ih _ (isRateLimited_snd_length_le limit windowMs t st hst)

end Proxy
